import Mathlib

/-!
Shallow embedding of `src/orchestration.py` (ProductionQBROrchestrator and
ProductionOrchestratorState).  Python dict payloads are modelled as
association lists of strings, floats as rationals, and each external adapter
call as an explicit call-outcome value passed into the operation: a `fail`
constructor models the Python call raising an exception, the other
constructors model the values the adapter returned (including which output
files it wrote).  Timestamps produced by `datetime.now()` are abstracted
away from conversation messages.
-/

/-- A conversation message `{role, content}` (the `timestamp` field produced
by `datetime.now()` is abstracted away). -/
structure Msg where
  role : String
  content : String
deriving DecidableEq, Repr

/-- A Python dict payload (QBR specification, mappings, ...), modelled as an
association list of opaque string values. -/
abbrev Dict := List (String × String)

/-- Python truthiness of an optional dict: `None` and `{}` are falsy. -/
def dictTruthy : Option Dict → Bool
  | none => false
  | some d => !d.isEmpty

/-- Python truthiness of an optional string: `None` and `""` are falsy
(used for the `if state.error_message:` checks). -/
def optStrTruthy : Option String → Bool
  | none => false
  | some s => !(s == "")

/-- Python `dict.update(e)` on the association-list model: keys of `d` keep
their position with values overridden by `e`, and new keys of `e` are
appended. -/
def dictUpdate (d e : Dict) : Dict :=
  d.map (fun p => match e.find? (fun q => q.1 == p.1) with
                  | some q => (p.1, q.2)
                  | none => p)
    ++ e.filter (fun q => !(d.any (fun p => p.1 == q.1)))

/-- The dict returned by `synthesis_agent.generate_presentation` (the keys
the orchestrator reads: `status`, `presentation_path`, `error`). -/
structure SynthResult where
  status : String
  presentation_path : Option String
  error : Option String
deriving DecidableEq, Repr

/-- `ProductionOrchestratorState` (`src/orchestration.py` lines 76-105),
field for field; `completion_percentage` is a rational. -/
structure OState where
  session_id : String
  user_input : String
  conversation_messages : List Msg
  engagement_response : String
  is_engagement_complete : Bool
  final_qbr_spec : Option Dict
  info_gathering_complete : Bool
  enriched_data_path : Option String
  tables_manifest : Option (List String)
  mappings : Option Dict
  synthesis_complete : Bool
  presentation_path : Option String
  presentation_result : Option SynthResult
  current_phase : String
  error_message : Option String
  retry_count : Nat
  completion_percentage : ℚ
deriving DecidableEq, Repr

/-- A fresh state with the pydantic field defaults (lines 76-102). -/
def initialState (sid : String) : OState :=
  { session_id := sid
    user_input := ""
    conversation_messages := []
    engagement_response := ""
    is_engagement_complete := false
    final_qbr_spec := none
    info_gathering_complete := false
    enriched_data_path := none
    tables_manifest := none
    mappings := none
    synthesis_complete := false
    presentation_path := none
    presentation_result := none
    current_phase := "engagement"
    error_message := none
    retry_count := 0
    completion_percentage := 0 }

/-- Outcome of the engagement-agent interaction inside `_engagement_node`:
`fail` is `process_message` raising; otherwise the node observes
`is_complete`, and on completion `get_final_spec`, while
`get_completion_percentage` may itself raise (`none`). -/
inductive EngagementCall
  | fail (msg : String)
  | notComplete (response : String) (pctQuery : Option ℚ)
  | complete (response : String) (spec : Option Dict)
deriving DecidableEq, Repr

/-- Outcome of `run_information_gatherer` in `_information_gathering_node`:
`fail` is the call raising; `ok` carries the contents of `spec.json`,
`tables_manifest.json` and `mappings.json` when those files exist after the
run (`none` = file absent). -/
inductive EnrichCall
  | fail (msg : String)
  | ok (enrichedSpec : Option Dict) (manifest : Option (List String))
       (mapp : Option Dict)
deriving DecidableEq, Repr

/-- Outcome of `generate_presentation` in `_synthesis_node`: `fail` is the
call raising, `result` the returned dict. -/
inductive SynthCall
  | fail (msg : String)
  | result (r : SynthResult)
deriving DecidableEq, Repr

/-- `_engagement_node` (lines 280-326).  On an adapter exception the
`except` block records the error and sets the phase to `"error"`; otherwise
the node appends the assistant reply, re-sets the phase to `"engagement"`,
and updates the completion percentage (`33.0` when complete,
`min(pct * 0.33, 32.0)` or the `10.0` fallback otherwise). -/
def engagement_node (call : EngagementCall) (s : OState) : OState :=
  match call with
  | .fail m =>
      { s with error_message := some m, current_phase := "error" }
  | .notComplete resp pq =>
      let s := { s with
        engagement_response := resp
        current_phase := "engagement"
        conversation_messages :=
          s.conversation_messages ++ [Msg.mk "assistant" resp]
        is_engagement_complete := false }
      match pq with
      | some pct =>
          { s with completion_percentage := min (pct * (33 / 100)) 32 }
      | none =>
          { s with completion_percentage := 10 }
  | .complete resp spec =>
      { s with
        engagement_response := resp
        current_phase := "engagement"
        conversation_messages :=
          s.conversation_messages ++ [Msg.mk "assistant" resp]
        is_engagement_complete := true
        final_qbr_spec := spec
        completion_percentage := 33 }

/-- The session-scoped output directory
`self.data_dir / session_id / "info_gathering"` (line 337). -/
def sessionOutputDir (sid : String) : String :=
  "session_data/" ++ sid ++ "/info_gathering"

/-- `_information_gathering_node` (lines 328-389).  Raising on a missing
spec or an adapter failure lands in the node's own `except` block; on
success the node marks completion, records the output path and re-reads
whichever of the three output files exist. -/
def information_gathering_node (call : EnrichCall) (s : OState) : OState :=
  if !(dictTruthy s.final_qbr_spec) then
    { s with
      error_message :=
        some "No QBR specification available for information gathering"
      current_phase := "error" }
  else
    match call with
    | .fail m =>
        { s with error_message := some m, current_phase := "error" }
    | .ok espec manifest mapp =>
        let s := { s with
          info_gathering_complete := true
          enriched_data_path := some (sessionOutputDir s.session_id) }
        let s := match espec with
          | some es =>
              { s with
                final_qbr_spec := some (dictUpdate (s.final_qbr_spec.getD []) es) }
          | none => s
        let s := match manifest with
          | some m => { s with tables_manifest := some m }
          | none => s
        match mapp with
        | some mp => { s with mappings := some mp }
        | none => s

/-- `_synthesis_node` (lines 391-434).  Note that `presentation_result` and
`synthesis_complete` are mutated before the status check, so they are set
even when the result's status is not `"success"` and the node then raises
into its own `except` block. -/
def synthesis_node (call : SynthCall) (s : OState) : OState :=
  if !(dictTruthy s.final_qbr_spec) then
    { s with
      error_message := some "No QBR specification available for synthesis"
      current_phase := "error" }
  else
    match call with
    | .fail m =>
        { s with error_message := some m, current_phase := "error" }
    | .result r =>
        let s := { s with
          presentation_result := some r
          synthesis_complete := true }
        if r.status == "success" then
          { s with presentation_path := r.presentation_path }
        else
          { s with
            error_message := some (r.error.getD "Unknown synthesis error")
            current_phase := "error" }

/-- Association-list lookup, modelling a Python dict keyed by session id. -/
def lookupA {α : Type} (l : List (String × α)) (k : String) : Option α :=
  match l.find? (fun p => p.1 == k) with
  | some p => some p.2
  | none => none

/-- Association-list overwrite, modelling `d[k] = v` on a Python dict. -/
def insertA {α : Type} (l : List (String × α)) (k : String) (v : α) :
    List (String × α) :=
  (k, v) :: l.filter (fun p => !(p.1 == k))

/-- The orchestrator's mutable world: the in-memory `_session_states` cache
and the four per-session file families under `./session_data`
(`{sid}_session_state.json`, `{sid}_conversation.json`,
`{sid}_engagement_state.json`, `{sid}_final_state.json`). -/
structure Orch where
  session_states : List (String × OState)
  disk_session : List (String × OState)
  disk_conversation : List (String × List Msg)
  disk_engagement : List (String × OState)
  disk_final : List (String × OState)
deriving DecidableEq, Repr

/-- The orchestrator with an empty cache and empty durable storage. -/
def emptyOrch : Orch :=
  { session_states := []
    disk_session := []
    disk_conversation := []
    disk_engagement := []
    disk_final := [] }

/-- The state `process_conversation_message` starts from (lines 150-168):
memory cache first, then `_load_session_state` from disk, else a fresh
`ProductionOrchestratorState`. -/
def pcm_loaded (o : Orch) (sid : String) : OState :=
  match lookupA o.session_states sid with
  | some s => s
  | none =>
      match lookupA o.disk_session sid with
      | some s => s
      | none => initialState sid

/-- `process_conversation_message` (lines 145-213): load the state, record
`user_input`, append the user message, run `_engagement_node` through the
conversation graph, then commit the result to the cache, to
`{sid}_session_state.json` and to `{sid}_conversation.json`, and to
`{sid}_engagement_state.json` when `is_engagement_complete` is set.
Adapter exceptions are caught inside `_engagement_node`, so this path does
not reach the outer `except` handler. -/
def process_conversation_message (o : Orch) (sid userMessage : String)
    (call : EngagementCall) : Orch × OState :=
  let state := pcm_loaded o sid
  let state := { state with
    user_input := userMessage
    conversation_messages :=
      state.conversation_messages ++ [Msg.mk "user" userMessage] }
  let final := engagement_node call state
  let o := { o with
    session_states := insertA o.session_states sid final
    disk_session := insertA o.disk_session sid final
    disk_conversation :=
      insertA o.disk_conversation sid final.conversation_messages
    disk_engagement :=
      if final.is_engagement_complete then
        insertA o.disk_engagement sid final
      else o.disk_engagement }
  (o, final)

/-- The load step of `complete_qbr_workflow` (lines 220-226): memory cache
first, else `_load_engagement_state` from disk, caching a state found on
disk. -/
def qbr_load (o : Orch) (sid : String) : Orch × Option OState :=
  match lookupA o.session_states sid with
  | some s => (o, some s)
  | none =>
      match lookupA o.disk_engagement sid with
      | some s =>
          ({ o with session_states := insertA o.session_states sid s },
           some s)
      | none => (o, none)

/-- The `except` handler of `complete_qbr_workflow` (lines 269-278): a
fresh error-bearing state is cached in memory; nothing is written to
disk. -/
def workflowError (o : Orch) (sid msg : String) : Orch × OState :=
  let err := { initialState sid with
    error_message := some msg
    current_phase := "error"
    completion_percentage := 0 }
  ({ o with session_states := insertA o.session_states sid err }, err)

/-- The phase-execution part of `complete_qbr_workflow` (lines 234-267),
entered with the loaded state after the specification check: the
information-gathering and synthesis phases run back to back inside the
single call; each error check commits the state to the in-memory cache
only, and the final success path writes `{sid}_final_state.json`. -/
def workflow_phases (o : Orch) (sid : String) (ec : EnrichCall)
    (sc : SynthCall) (state : OState) : Orch × OState :=
  let state := information_gathering_node ec
    { state with
      current_phase := "information_gathering"
      completion_percentage := 50 }
  if optStrTruthy state.error_message then
    ({ o with session_states := insertA o.session_states sid state },
     state)
  else
    let state := synthesis_node sc
      { state with
        current_phase := "synthesis"
        completion_percentage := 80 }
    if optStrTruthy state.error_message then
      ({ o with session_states := insertA o.session_states sid state },
       state)
    else
      let state := { state with
        current_phase := "complete"
        completion_percentage := 100 }
      ({ o with
         session_states := insertA o.session_states sid state
         disk_final := insertA o.disk_final sid state },
       state)

/-- `complete_qbr_workflow` (lines 215-278): load the engagement state,
check the specification (the two `raise`s land in the `except` handler),
then run both phases via `workflow_phases`. -/
def complete_qbr_workflow (o : Orch) (sid : String) (ec : EnrichCall)
    (sc : SynthCall) : Orch × OState :=
  match qbr_load o sid with
  | (o, none) =>
      workflowError o sid
        "No completed engagement state found. Complete engagement first."
  | (o, some state) =>
      if !(dictTruthy state.final_qbr_spec) then
        workflowError o sid
          "No QBR specification available. Engagement may not be complete."
      else
        workflow_phases o sid ec sc state

/-- The orchestrator and record of `complete_qbr_workflow` at the program
point right after `state.current_phase = "synthesis";
state.completion_percentage = 80.0` (lines 248-249), i.e. just before
`_synthesis_node` runs; `none` when that point is not reached (missing
state, missing spec, or an error after information gathering). -/
def workflow_before_synthesis (o : Orch) (sid : String) (ec : EnrichCall) :
    Option (Orch × OState) :=
  match qbr_load o sid with
  | (_, none) => none
  | (o, some state) =>
      if !(dictTruthy state.final_qbr_spec) then none
      else
        let state := information_gathering_node ec
          { state with
            current_phase := "information_gathering"
            completion_percentage := 50 }
        if optStrTruthy state.error_message then none
        else
          some (o, { state with
            current_phase := "synthesis"
            completion_percentage := 80 })

/-- A durable-storage operation performed by a save helper. -/
inductive FsOp
  | write (path : String) (content : OState)
  | rename (src dst : String)
deriving DecidableEq, Repr

/-- The path `self.data_dir / f"{session_id}_session_state.json"`. -/
def sessionStateFile (sid : String) : String :=
  "session_data/" ++ sid ++ "_session_state.json"

/-- The path `self.data_dir / f"{session_id}_engagement_state.json"`. -/
def engagementStateFile (sid : String) : String :=
  "session_data/" ++ sid ++ "_engagement_state.json"

/-- The durable operations of `_save_session_state` (lines 449-456): a
single `open(state_file, 'w')` followed by `json.dump` writes the record
file in place. -/
def save_session_state_ops (sid : String) (st : OState) : List FsOp :=
  [FsOp.write (sessionStateFile sid) st]

/-- The durable operations of `_save_engagement_state` (lines 490-497):
likewise a single in-place write. -/
def save_engagement_state_ops (sid : String) (st : OState) : List FsOp :=
  [FsOp.write (engagementStateFile sid) st]

/-- Whether a save consists of writing a temporary location distinct from
the final path and then renaming it over the final path (write-then-replace
semantics). -/
def usesAtomicReplace (ops : List FsOp) (finalPath : String) : Bool :=
  match ops with
  | [FsOp.write tmp _, FsOp.rename src dst] =>
      !(tmp == finalPath) && src == tmp && dst == finalPath
  | _ => false

/-- How `_information_gathering_node` communicates with
`run_information_gatherer` (lines 336-346): the arguments of the call
itself, and the value of the process-wide `QBR_OUT` environment variable at
the moment of the call. -/
structure EnrichInvocation where
  arg_spec : Dict
  arg_output_location : Option String
  env_qbr_out_at_call : Option String
deriving DecidableEq, Repr

/-- The invocation `_information_gathering_node` performs for a state
(lines 336-346): `run_information_gatherer(state.final_qbr_spec)` receives
only the specification, while `os.environ["QBR_OUT"]` is set to the
session output directory before the call. -/
def info_gathering_enrich_invocation (s : OState) : EnrichInvocation :=
  { arg_spec := s.final_qbr_spec.getD []
    arg_output_location := none
    env_qbr_out_at_call := some (sessionOutputDir s.session_id) }

/-- The `finally` block restoring `QBR_OUT` (lines 349-354): the original
value is restored when truthy, otherwise the variable is deleted. -/
def restore_qbr_out (original : Option String) : Option String :=
  if optStrTruthy original then original else none

/-! Concrete sessions used to exercise the model. -/

/-- A small QBR specification. -/
def sampleSpec : Dict := [("customer", "acme")]

/-- A session record for `"s1"` whose engagement phase has completed: the
specification is present and `completion_percentage` is `33`. -/
def engagedState : OState :=
  { initialState "s1" with
    final_qbr_spec := some sampleSpec
    is_engagement_complete := true
    completion_percentage := 33
    conversation_messages := [Msg.mk "user" "hi", Msg.mk "assistant" "done"] }

/-- An orchestrator whose in-memory cache holds the engaged `"s1"` record
and whose durable storage is empty. -/
def orchEngaged : Orch :=
  { emptyOrch with session_states := [("s1", engagedState)] }

/-- The engaged `"s1"` record with the terminal phase `"complete"`. -/
def completeState : OState :=
  { engagedState with current_phase := "complete", completion_percentage := 100 }

/-- An orchestrator caching the completed `"s1"` record. -/
def orchComplete : Orch :=
  { emptyOrch with session_states := [("s1", completeState)] }

/-- The engaged `"s1"` record carrying a leftover error message from an
earlier failed attempt (nothing in the code ever clears `error_message`). -/
def staleErrorState : OState :=
  { engagedState with error_message := some "previous failure" }

/-- An orchestrator caching the stale-error `"s1"` record. -/
def orchStaleError : Orch :=
  { emptyOrch with session_states := [("s1", staleErrorState)] }

/-- An enrichment run that succeeds and writes all three output files. -/
def ecAll : EnrichCall :=
  .ok (some [("enriched", "yes")]) (some ["table1"]) (some [("field", "col")])

/-- An enrichment run that succeeds but writes none of the output files. -/
def ecEmpty : EnrichCall := .ok none none none

/-- A synthesis run returning a successful result. -/
def scSuccess : SynthCall :=
  .result ⟨"success", some "presentation.pptx", none⟩

/-! Helper lemmas about the store model. -/

/-- Looking up the key just overwritten returns the new value. -/
theorem lookupA_insertA {α : Type} (l : List (String × α)) (k : String)
    (v : α) : lookupA (insertA l k v) k = some v := by
  simp [lookupA, insertA, List.find?]

/-- C1: after exactly 3 consecutive adapter failures the claimed behavior is
`phase = "failed"` with `retry_count` having been incremented on each
failure; on the code, three consecutive engagement-adapter failures on a
fresh session leave `current_phase = "error"` (never `"failed"`) and
`retry_count = 0`, and the third failure was still dispatched to the
adapter (its error message is recorded). -/
theorem c1_counterexample :
    ((process_conversation_message
        (process_conversation_message
          (process_conversation_message emptyOrch "s1" "m1"
            (EngagementCall.fail "e1")).1
          "s1" "m2" (EngagementCall.fail "e2")).1
        "s1" "m3" (EngagementCall.fail "e3")).2).current_phase = "error" ∧
    ((process_conversation_message
        (process_conversation_message
          (process_conversation_message emptyOrch "s1" "m1"
            (EngagementCall.fail "e1")).1
          "s1" "m2" (EngagementCall.fail "e2")).1
        "s1" "m3" (EngagementCall.fail "e3")).2).current_phase ≠ "failed" ∧
    ((process_conversation_message
        (process_conversation_message
          (process_conversation_message emptyOrch "s1" "m1"
            (EngagementCall.fail "e1")).1
          "s1" "m2" (EngagementCall.fail "e2")).1
        "s1" "m3" (EngagementCall.fail "e3")).2).retry_count = 0 ∧
    ((process_conversation_message
        (process_conversation_message
          (process_conversation_message emptyOrch "s1" "m1"
            (EngagementCall.fail "e1")).1
          "s1" "m2" (EngagementCall.fail "e2")).1
        "s1" "m3" (EngagementCall.fail "e3")).2).error_message = some "e3" := by
  decide

/-- C1 (amended): there is no retry cap.  Every adapter failure during
message processing records the failure's error message (so the adapter was
dispatched regardless of how many failures preceded), sets
`current_phase` to `"error"` — never `"failed"` — and leaves `retry_count`
exactly as it was in the loaded record. -/
theorem c1_amended (o : Orch) (sid msg e : String) :
    ((process_conversation_message o sid msg (EngagementCall.fail e)).2).current_phase
      = "error" ∧
    ((process_conversation_message o sid msg (EngagementCall.fail e)).2).retry_count
      = (pcm_loaded o sid).retry_count ∧
    ((process_conversation_message o sid msg (EngagementCall.fail e)).2).error_message
      = some e := by
  simp [process_conversation_message, engagement_node]

/-- C3: a record whose phase is the terminal `"complete"` is not protected:
processing one more message through the engagement node moves its phase
back to `"engagement"`. -/
theorem c3_counterexample :
    completeState.current_phase = "complete" ∧
    ((process_conversation_message orchComplete "s1" "hi"
        (EngagementCall.notComplete "reply" (some 50))).2).current_phase
      = "engagement" := by
  decide

/-- C3 (amended): `"complete"` and `"failed"` are not terminal — message
processing unconditionally overwrites the phase of whatever record it
loads, to `"engagement"` on a non-raising adapter call and to `"error"` on
a raising one, regardless of the loaded record's phase. -/
theorem c3_amended (o : Orch) (sid msg resp e : String) (pq : Option ℚ) :
    ((process_conversation_message o sid msg
        (EngagementCall.notComplete resp pq)).2).current_phase = "engagement" ∧
    ((process_conversation_message o sid msg
        (EngagementCall.fail e)).2).current_phase = "error" := by
  cases pq <;> simp [process_conversation_message, engagement_node]

/-- C8: on the code, the enrichment adapter call
`run_information_gatherer(state.final_qbr_spec)` receives no
output-location argument; the session-scoped output directory is
communicated through the process-wide `QBR_OUT` environment variable,
which is set at the moment of the call. -/
theorem c8_counterexample :
    (info_gathering_enrich_invocation engagedState).arg_output_location = none ∧
    (info_gathering_enrich_invocation engagedState).env_qbr_out_at_call =
      some "session_data/s1/info_gathering" := by
  decide

/-- C8 (amended): for every state, the enrichment invocation passes only the
specification as a call argument (`arg_output_location = none`) and
communicates the session-scoped output directory through the ambient
`QBR_OUT` environment variable, which is visible at the moment of the
call. -/
theorem c8_amended (s : OState) :
    (info_gathering_enrich_invocation s).arg_output_location = none ∧
    (info_gathering_enrich_invocation s).env_qbr_out_at_call =
      some (sessionOutputDir s.session_id) ∧
    (info_gathering_enrich_invocation s).arg_spec = s.final_qbr_spec.getD [] := by
  simp [info_gathering_enrich_invocation]

/-- C9: the save of the `"s1"` session record is a single in-place write of
the record file; it is not a write-to-temporary followed by a rename. -/
theorem c9_counterexample :
    usesAtomicReplace (save_session_state_ops "s1" engagedState)
      (sessionStateFile "s1") = false ∧
    save_session_state_ops "s1" engagedState =
      [FsOp.write (sessionStateFile "s1") engagedState] := by
  decide

/-- C9 (amended): every save of a session record (`_save_session_state` and
`_save_engagement_state`) performs exactly one direct write to the
session's record file, with no temporary location and no rename, so an
interrupted write can leave a partial file. -/
theorem c9_amended (sid : String) (st : OState) :
    save_session_state_ops sid st = [FsOp.write (sessionStateFile sid) st] ∧
    save_engagement_state_ops sid st =
      [FsOp.write (engagementStateFile sid) st] ∧
    usesAtomicReplace (save_session_state_ops sid st)
      (sessionStateFile sid) = false ∧
    usesAtomicReplace (save_engagement_state_ops sid st)
      (engagementStateFile sid) = false := by
  simp [save_session_state_ops, save_engagement_state_ops, usesAtomicReplace]

/-- C10: after a processed message on which the engagement adapter does not
report completion, the record's `completion_percentage` is at most `32`
(`min(pct * 0.33, 32)` from the adapter's reported percentage, or the `10`
fallback when the percentage query raises), and it is exactly `33` on the
message where the adapter reports completion. -/
theorem c10_completion_percentage (o : Orch) (sid msg resp : String)
    (pq : Option ℚ) (sp : Option Dict) :
    ((process_conversation_message o sid msg
        (EngagementCall.notComplete resp pq)).2).is_engagement_complete
      = false ∧
    ((process_conversation_message o sid msg
        (EngagementCall.notComplete resp pq)).2).completion_percentage ≤ 32 ∧
    ((process_conversation_message o sid msg
        (EngagementCall.notComplete resp pq)).2).completion_percentage =
      (match pq with
       | some pct => min (pct * (33 / 100)) 32
       | none => 10) ∧
    ((process_conversation_message o sid msg
        (EngagementCall.complete resp sp)).2).completion_percentage = 33 := by
  cases pq with
  | none =>
      refine ⟨?_, ?_, ?_, ?_⟩
      all_goals simp [process_conversation_message, engagement_node]
      all_goals norm_num
  | some pct =>
      refine ⟨?_, ?_, ?_, ?_⟩
      all_goals simp [process_conversation_message, engagement_node]

/-- C2: on an adapter failure during message processing for the engaged
`"s1"` session, the committed record does not merely gain the error and an
incremented retry count: its phase changes to `"error"` (the claim says the
phase stays unchanged), its `retry_count` stays `0` (the claim says it is
incremented), and its transcript has grown by the user message. -/
theorem c2_counterexample :
    ((process_conversation_message orchEngaged "s1" "hello"
        (EngagementCall.fail "boom")).2).current_phase = "error" ∧
    engagedState.current_phase = "engagement" ∧
    ((process_conversation_message orchEngaged "s1" "hello"
        (EngagementCall.fail "boom")).2).retry_count = 0 ∧
    engagedState.retry_count = 0 ∧
    ((process_conversation_message orchEngaged "s1" "hello"
        (EngagementCall.fail "boom")).2).conversation_messages ≠
      engagedState.conversation_messages := by
  decide

/-- C2 (amended): on an adapter failure during message processing, the
committed record (in the cache, in the session-state file and in the
conversation file) is exactly the pre-call record with `user_input`
replaced by the incoming message, the user message appended to the
transcript, the error captured in `error_message`, and `current_phase` set
to `"error"`; in particular `retry_count` and all artifact fields are
unchanged while the phase does change. -/
theorem c2_amended (o : Orch) (sid msg e : String) (p : OState)
    (h : lookupA o.session_states sid = some p) :
    (process_conversation_message o sid msg (EngagementCall.fail e)).2 =
      { p with
        user_input := msg
        conversation_messages :=
          p.conversation_messages ++ [Msg.mk "user" msg]
        error_message := some e
        current_phase := "error" } ∧
    lookupA ((process_conversation_message o sid msg
        (EngagementCall.fail e)).1).session_states sid =
      some ((process_conversation_message o sid msg
        (EngagementCall.fail e)).2) ∧
    lookupA ((process_conversation_message o sid msg
        (EngagementCall.fail e)).1).disk_session sid =
      some ((process_conversation_message o sid msg
        (EngagementCall.fail e)).2) ∧
    lookupA ((process_conversation_message o sid msg
        (EngagementCall.fail e)).1).disk_conversation sid =
      some ((process_conversation_message o sid msg
        (EngagementCall.fail e)).2).conversation_messages := by
  refine ⟨?_, ?_, ?_, ?_⟩ <;>
    simp [process_conversation_message, pcm_loaded, h, engagement_node,
      lookupA_insertA]

/-- Witness for the amended C2 at the engaged `"s1"` session. -/
theorem c2_amended_witness :
    (process_conversation_message orchEngaged "s1" "hello"
        (EngagementCall.fail "boom")).2 =
      { engagedState with
        user_input := "hello"
        conversation_messages :=
          engagedState.conversation_messages ++ [Msg.mk "user" "hello"]
        error_message := some "boom"
        current_phase := "error" } ∧
    lookupA ((process_conversation_message orchEngaged "s1" "hello"
        (EngagementCall.fail "boom")).1).session_states "s1" =
      some ((process_conversation_message orchEngaged "s1" "hello"
        (EngagementCall.fail "boom")).2) ∧
    lookupA ((process_conversation_message orchEngaged "s1" "hello"
        (EngagementCall.fail "boom")).1).disk_session "s1" =
      some ((process_conversation_message orchEngaged "s1" "hello"
        (EngagementCall.fail "boom")).2) ∧
    lookupA ((process_conversation_message orchEngaged "s1" "hello"
        (EngagementCall.fail "boom")).1).disk_conversation "s1" =
      some ((process_conversation_message orchEngaged "s1" "hello"
        (EngagementCall.fail "boom")).2).conversation_messages :=
  c2_amended orchEngaged "s1" "hello" "boom" engagedState (by decide)

/-- `dict.update` preserves Python truthiness of the specification. -/
theorem dictTruthy_update (d e : Dict) (h : dictTruthy (some d) = true) :
    dictTruthy (some (dictUpdate d e)) = true := by
  cases d with
  | nil => simp [dictTruthy] at h
  | cons a as => simp [dictTruthy, dictUpdate]

/-- `complete_qbr_workflow` never writes the session-state, conversation or
engagement files; its only durable write is the final-state file on full
success. -/
theorem workflow_disk_frame (o : Orch) (sid : String) (ec : EnrichCall)
    (sc : SynthCall) :
    ((complete_qbr_workflow o sid ec sc).1).disk_session = o.disk_session ∧
    ((complete_qbr_workflow o sid ec sc).1).disk_conversation =
      o.disk_conversation ∧
    ((complete_qbr_workflow o sid ec sc).1).disk_engagement =
      o.disk_engagement := by
  unfold complete_qbr_workflow workflow_phases qbr_load workflowError
  cases hl : lookupA o.session_states sid with
  | none =>
      cases hd : lookupA o.disk_engagement sid with
      | none => simp
      | some s =>
          simp only []
          split <;> (try split) <;> (try split) <;> simp_all
  | some s =>
      simp only []
      split <;> (try split) <;> (try split) <;> simp_all

/-- The record of the engaged `"s1"` session at the point between the
information-gathering and synthesis executions, when the enrichment run
wrote all three output files. -/
def betweenState : OState :=
  { session_id := "s1"
    user_input := ""
    conversation_messages := [Msg.mk "user" "hi", Msg.mk "assistant" "done"]
    engagement_response := ""
    is_engagement_complete := true
    final_qbr_spec := some [("customer", "acme"), ("enriched", "yes")]
    info_gathering_complete := true
    enriched_data_path := some "session_data/s1/info_gathering"
    tables_manifest := some ["table1"]
    mappings := some [("field", "col")]
    synthesis_complete := false
    presentation_path := none
    presentation_result := none
    current_phase := "synthesis"
    error_message := none
    retry_count := 0
    completion_percentage := 80 }

/-- C4: continuing the engaged `"s1"` pipeline with a succeeding enrichment
run reaches the point between the information-gathering and synthesis
executions with durable storage exactly as it was before the call — in
particular no session-state file for `"s1"` exists there, although
information gathering has completed — so an interruption at that point does
not leave a durable record ready to re-enter synthesis. -/
theorem c4_counterexample :
    (workflow_before_synthesis orchEngaged "s1" ecAll).map Prod.fst =
      some orchEngaged ∧
    lookupA orchEngaged.disk_session "s1" = none ∧
    (workflow_before_synthesis orchEngaged "s1" ecAll).map
        (fun p => p.2.info_gathering_complete) = some true := by
  decide

/-- C4 (amended): pipeline continuation performs no durable write before
its very end: whenever the point between the information-gathering and
synthesis executions is reached, every durable file family equals its
pre-call content, and over the whole call the session-state file family is
never written. -/
theorem c4_amended (o : Orch) (sid : String) (ec : EnrichCall)
    (sc : SynthCall) (o' : Orch) (st : OState)
    (h : workflow_before_synthesis o sid ec = some (o', st)) :
    o'.disk_session = o.disk_session ∧
    o'.disk_conversation = o.disk_conversation ∧
    o'.disk_engagement = o.disk_engagement ∧
    o'.disk_final = o.disk_final ∧
    ((complete_qbr_workflow o sid ec sc).1).disk_session = o.disk_session := by
  have hf := (workflow_disk_frame o sid ec sc).1
  unfold workflow_before_synthesis qbr_load at h
  cases hl : lookupA o.session_states sid with
  | none =>
      cases hd : lookupA o.disk_engagement sid with
      | none => rw [hl, hd] at h; simp at h
      | some s =>
          rw [hl, hd] at h
          simp only [] at h
          split at h
          · simp at h
          · split at h
            · simp at h
            · obtain ⟨ho, hst⟩ := Prod.mk.injEq .. ▸ Option.some.inj h
              subst ho
              simp_all
  | some s =>
      rw [hl] at h
      simp only [] at h
      split at h
      · simp at h
      · split at h
        · simp at h
        · obtain ⟨ho, hst⟩ := Prod.mk.injEq .. ▸ Option.some.inj h
          subst ho
          simp_all

/-- Witness for the amended C4 at the engaged `"s1"` session. -/
theorem c4_amended_witness :
    orchEngaged.disk_session = orchEngaged.disk_session ∧
    orchEngaged.disk_conversation = orchEngaged.disk_conversation ∧
    orchEngaged.disk_engagement = orchEngaged.disk_engagement ∧
    orchEngaged.disk_final = orchEngaged.disk_final ∧
    ((complete_qbr_workflow orchEngaged "s1" ecAll scSuccess).1).disk_session =
      orchEngaged.disk_session :=
  c4_amended orchEngaged "s1" ecAll scSuccess orchEngaged betweenState
    (by decide)

/-- Python truthiness survives `Option.getD` with the empty-dict default. -/
theorem dictTruthy_getD (x : Option Dict) (h : dictTruthy x = true) :
    dictTruthy (some (x.getD [])) = true := by
  cases x <;> simp_all [dictTruthy]

/-- Combining the two: updating the unwrapped specification keeps it
truthy. -/
theorem dictTruthy_update_getD (x : Option Dict) (e : Dict)
    (h : dictTruthy x = true) :
    dictTruthy (some (dictUpdate (x.getD []) e)) = true :=
  dictTruthy_update _ e (dictTruthy_getD x h)

/-- `_information_gathering_node` never turns a truthy specification into a
falsy one. -/
theorem info_node_spec_truthy (ec : EnrichCall) (s : OState)
    (hs : dictTruthy s.final_qbr_spec = true) :
    dictTruthy (information_gathering_node ec s).final_qbr_spec = true := by
  unfold information_gathering_node
  rw [if_neg (by simp [hs])]
  cases ec with
  | fail m => simpa using hs
  | ok es mf mp =>
      cases es <;> cases mf <;> cases mp <;>
        simp_all [dictTruthy_update_getD]

/-- `_synthesis_node` either keeps the phase it was given or sets it to
`"error"`. -/
theorem synthesis_node_phase (sc : SynthCall) (s : OState) :
    (synthesis_node sc s).current_phase = s.current_phase ∨
    (synthesis_node sc s).current_phase = "error" := by
  unfold synthesis_node
  split
  · right; rfl
  · cases sc with
    | fail m => right; rfl
    | result r =>
        by_cases hr : r.status == "success"
        · left; simp [hr]
        · right; simp [hr]

/-- If the phase-execution part of the workflow returns a record in phase
`"information_gathering"`, that record's specification is truthy. -/
theorem workflow_phases_info_spec (o : Orch) (sid : String) (ec : EnrichCall)
    (sc : SynthCall) (s : OState)
    (hs : dictTruthy s.final_qbr_spec = true) :
    ((workflow_phases o sid ec sc s).2).current_phase =
        "information_gathering" →
      dictTruthy ((workflow_phases o sid ec sc s).2).final_qbr_spec
        = true := by
  intro hph
  unfold workflow_phases at hph ⊢
  have hs1 : dictTruthy (information_gathering_node ec
      { s with
        current_phase := "information_gathering"
        completion_percentage := 50 }).final_qbr_spec = true :=
    info_node_spec_truthy ec _ (by simpa using hs)
  by_cases he1 : optStrTruthy (information_gathering_node ec
      { s with
        current_phase := "information_gathering"
        completion_percentage := 50 }).error_message = true
  · simpa [if_pos he1] using hs1
  · rw [if_neg he1] at hph ⊢
    rcases synthesis_node_phase sc
        { information_gathering_node ec
            { s with
              current_phase := "information_gathering"
              completion_percentage := 50 } with
          current_phase := "synthesis"
          completion_percentage := 80 }
      with h | h <;>
      by_cases he2 : optStrTruthy ((synthesis_node sc
        { information_gathering_node ec
            { s with
              current_phase := "information_gathering"
              completion_percentage := 50 } with
          current_phase := "synthesis"
          completion_percentage := 80 })).error_message = true <;>
      simp_all

/-- Whether `complete_qbr_workflow` finds a state with a truthy
specification for the session (the condition it checks before entering
information gathering). -/
def qbrSpecAvailable (o : Orch) (sid : String) : Bool :=
  match (qbr_load o sid).2 with
  | none => false
  | some p => dictTruthy p.final_qbr_spec

/-- C5: pipeline continuation for the engaged `"s1"` session with an
enrichment run that succeeds but writes no output files reaches phase
`"synthesis"` with `tables_manifest = none` and `mappings = none`, i.e. the
transition into synthesis occurs while the enrichment artifacts are
absent. -/
theorem c5_counterexample :
    (workflow_before_synthesis orchEngaged "s1" ecEmpty).map
        (fun q => (q.2.current_phase, q.2.tables_manifest, q.2.mappings)) =
      some ("synthesis", none, none) := by
  decide

/-- C5 (amended): whenever the loaded state has a truthy specification and
no truthy leftover error, any enrichment run that completes without raising
moves the phase into `"synthesis"` regardless of artifacts; the artifact
fields are populated only for the output files the run actually wrote, and
keep their previous values otherwise. -/
theorem c5_amended (o : Orch) (sid : String) (p : OState)
    (es : Option Dict) (mf : Option (List String)) (mp : Option Dict)
    (h1 : lookupA o.session_states sid = some p)
    (h2 : dictTruthy p.final_qbr_spec = true)
    (h3 : optStrTruthy p.error_message = false) :
    ∃ st, workflow_before_synthesis o sid (EnrichCall.ok es mf mp) =
        some (o, st) ∧
      st.current_phase = "synthesis" ∧
      st.completion_percentage = 80 ∧
      st.tables_manifest =
        (match mf with | some m => some m | none => p.tables_manifest) ∧
      st.mappings =
        (match mp with | some m => some m | none => p.mappings) := by
  unfold workflow_before_synthesis qbr_load information_gathering_node
  rw [h1]
  cases es <;> cases mf <;> cases mp <;> simp_all

/-- Witness for the amended C5 at the engaged `"s1"` session with an
artifact-free enrichment run. -/
theorem c5_amended_witness :
    ∃ st, workflow_before_synthesis orchEngaged "s1"
        (EnrichCall.ok none none none) = some (orchEngaged, st) ∧
      st.current_phase = "synthesis" ∧
      st.completion_percentage = 80 ∧
      st.tables_manifest = engagedState.tables_manifest ∧
      st.mappings = engagedState.mappings :=
  c5_amended orchEngaged "s1" engagedState none none none (by decide)
    (by decide) (by decide)

/-- C6: the record's phase can be `"information_gathering"` only while the
specification is present (truthy), and invoking pipeline continuation on a
session without an available specification yields phase `"error"`, never an
advance into information gathering. -/
theorem c6_info_gathering_precondition (o : Orch) (sid : String)
    (ec : EnrichCall) (sc : SynthCall) :
    (((complete_qbr_workflow o sid ec sc).2).current_phase =
        "information_gathering" →
      dictTruthy
        ((complete_qbr_workflow o sid ec sc).2).final_qbr_spec = true) ∧
    (qbrSpecAvailable o sid = false →
      ((complete_qbr_workflow o sid ec sc).2).current_phase = "error") := by
  constructor
  · unfold complete_qbr_workflow qbr_load
    cases hl : lookupA o.session_states sid with
    | none =>
        cases hd : lookupA o.disk_engagement sid with
        | none =>
            intro hph
            simp [workflowError] at hph
        | some s =>
            simp only []
            split
            · intro hph
              simp [workflowError] at hph
            · next hspec =>
                exact workflow_phases_info_spec _ sid ec sc s
                  (by simpa using hspec)
    | some s =>
        simp only []
        split
        · intro hph
          simp [workflowError] at hph
        · next hspec =>
            exact workflow_phases_info_spec _ sid ec sc s
              (by simpa using hspec)
  · intro hna
    unfold qbrSpecAvailable qbr_load at hna
    unfold complete_qbr_workflow qbr_load workflowError
    cases hl : lookupA o.session_states sid with
    | none =>
        cases hd : lookupA o.disk_engagement sid with
        | none => simp
        | some s =>
            rw [hl, hd] at hna
            simp only [] at hna
            simp_all
    | some s =>
        rw [hl] at hna
        simp only [] at hna
        simp_all

/-- Witness for C6: a session carrying a stale error returns in phase
`"information_gathering"` with a truthy specification, and an unknown
session yields phase `"error"`. -/
theorem c6_witness :
    dictTruthy ((complete_qbr_workflow orchStaleError "s1" ecAll
        scSuccess).2).final_qbr_spec = true ∧
    ((complete_qbr_workflow emptyOrch "s1" ecAll
        scSuccess).2).current_phase = "error" :=
  ⟨(c6_info_gathering_precondition orchStaleError "s1" ecAll scSuccess).1
      (by decide),
   (c6_info_gathering_precondition emptyOrch "s1" ecAll scSuccess).2
      (by decide)⟩

/-- C7: when the engaged `"s1"` pipeline is continued with a succeeding
enrichment run, the record enters synthesis with
`completion_percentage = 80`, not `66` as claimed. -/
theorem c7_counterexample :
    (workflow_before_synthesis orchEngaged "s1" ecAll).map
        (fun q => (q.2.current_phase, q.2.completion_percentage)) =
      some ("synthesis", 80) ∧ (80 : ℚ) ≠ 66 := by
  decide

/-- C7 (amended): a single pipeline continuation whose enrichment and
synthesis runs both succeed passes through phase `"synthesis"` with
`completion_percentage = 80` (not 66), and its committed result has phase
`"complete"`, `completion_percentage = 100`, `presentation_path` equal to
the path reported by the synthesis adapter (no file-existence check), and
is written to the final-state file. -/
theorem c7_amended (o : Orch) (sid : String) (p : OState)
    (es : Option Dict) (mf : Option (List String)) (mp : Option Dict)
    (r : SynthResult)
    (h1 : lookupA o.session_states sid = some p)
    (h2 : dictTruthy p.final_qbr_spec = true)
    (h3 : optStrTruthy p.error_message = false)
    (h4 : r.status = "success") :
    (workflow_before_synthesis o sid (EnrichCall.ok es mf mp)).map
        (fun q => (q.2.current_phase, q.2.completion_percentage)) =
      some ("synthesis", 80) ∧
    ((complete_qbr_workflow o sid (EnrichCall.ok es mf mp)
        (SynthCall.result r)).2).current_phase = "complete" ∧
    ((complete_qbr_workflow o sid (EnrichCall.ok es mf mp)
        (SynthCall.result r)).2).completion_percentage = 100 ∧
    ((complete_qbr_workflow o sid (EnrichCall.ok es mf mp)
        (SynthCall.result r)).2).presentation_path = r.presentation_path ∧
    lookupA ((complete_qbr_workflow o sid (EnrichCall.ok es mf mp)
        (SynthCall.result r)).1).disk_final sid =
      some ((complete_qbr_workflow o sid (EnrichCall.ok es mf mp)
        (SynthCall.result r)).2) := by
  cases hsp : p.final_qbr_spec with
  | none => rw [hsp] at h2; simp [dictTruthy] at h2
  | some d =>
      have hd : dictTruthy (some d) = true := by rw [hsp] at h2; exact h2
      unfold workflow_before_synthesis complete_qbr_workflow workflow_phases
        qbr_load information_gathering_node synthesis_node
      rw [h1]
      cases es <;> cases mf <;> cases mp <;>
        simp_all [lookupA_insertA, dictTruthy_update, h4]

/-- Witness for the amended C7 at the engaged `"s1"` session. -/
theorem c7_amended_witness :
    (workflow_before_synthesis orchEngaged "s1"
        (EnrichCall.ok (some [("enriched", "yes")]) (some ["table1"])
          (some [("field", "col")]))).map
        (fun q => (q.2.current_phase, q.2.completion_percentage)) =
      some ("synthesis", 80) ∧
    ((complete_qbr_workflow orchEngaged "s1"
        (EnrichCall.ok (some [("enriched", "yes")]) (some ["table1"])
          (some [("field", "col")]))
        (SynthCall.result ⟨"success", some "presentation.pptx",
          none⟩)).2).current_phase = "complete" ∧
    ((complete_qbr_workflow orchEngaged "s1"
        (EnrichCall.ok (some [("enriched", "yes")]) (some ["table1"])
          (some [("field", "col")]))
        (SynthCall.result ⟨"success", some "presentation.pptx",
          none⟩)).2).completion_percentage = 100 ∧
    ((complete_qbr_workflow orchEngaged "s1"
        (EnrichCall.ok (some [("enriched", "yes")]) (some ["table1"])
          (some [("field", "col")]))
        (SynthCall.result ⟨"success", some "presentation.pptx",
          none⟩)).2).presentation_path = some "presentation.pptx" ∧
    lookupA ((complete_qbr_workflow orchEngaged "s1"
        (EnrichCall.ok (some [("enriched", "yes")]) (some ["table1"])
          (some [("field", "col")]))
        (SynthCall.result ⟨"success", some "presentation.pptx",
          none⟩)).1).disk_final "s1" =
      some ((complete_qbr_workflow orchEngaged "s1"
        (EnrichCall.ok (some [("enriched", "yes")]) (some ["table1"])
          (some [("field", "col")]))
        (SynthCall.result ⟨"success", some "presentation.pptx",
          none⟩)).2) :=
  c7_amended orchEngaged "s1" engagedState (some [("enriched", "yes")])
    (some ["table1"]) (some [("field", "col")])
    ⟨"success", some "presentation.pptx", none⟩
    (by decide) (by decide) (by decide) (by decide)
